import Mathlib

/-!
Shallow embedding of `keras_contrib/applications/densenet.py`.

The file builds Keras computation graphs; we model graph tensors as a symbolic
inductive type `KC.Tensor` recording which layer constructors were applied with
which derived integer arguments.  Framework-side behaviour (tensor math, weight
file parsing, `_obtain_input_shape`) is not modelled; the file's own logic
(argument validation, derived integer computation, wiring order) is modelled
faithfully.  Python `int` is modelled as `Int`; Python floats (`reduction`,
`compression`, `dropout_rate`, `weight_decay`) are modelled as `Rat` — the
claims about them are either structural (the same expression computed twice) or
exactness-preserving (the divisibility assert makes `int((depth - 4) / 3)`
exact), so binary-float rounding is immaterial.  `int(x)` truncation toward
zero is `Int.tdiv`, Python `//` floor division is `Int.fdiv`.  Falsy `None`
and `0.0` for `dropout_rate` are both modelled as `0`.  Python failures
(`raise ValueError`, failing `assert`, unbound names, wrong arity calls) are
modelled with `Except`.
-/

set_option linter.unusedVariables false

namespace KC

/-- Python errors raised by the module, by kind and message. -/
inductive BuildError where
  | valueError (msg : String) : BuildError
  | assertionError (msg : String) : BuildError
  | nameError (name : String) : BuildError
  | typeError (msg : String) : BuildError
  | indexError (msg : String) : BuildError
deriving DecidableEq

/-- Symbolic Keras tensors: each constructor is one layer application from the
source file, recording the derived arguments that the file itself computes. -/
inductive Tensor where
  | img : Tensor
  | batchNorm (axis : Int) (x : Tensor) : Tensor
  | activationLayer (kind : String) (x : Tensor) : Tensor
  | conv2d (filters : Int) (kernel : Int × Int) (x : Tensor) : Tensor
  | conv2dTranspose (filters : Int) (outShape : List (Option Int)) (x : Tensor) : Tensor
  | dropoutLayer (rate : Rat) (x : Tensor) : Tensor
  | avgPool (x : Tensor) : Tensor
  | globalAvgPool (x : Tensor) : Tensor
  | denseLayer (units : Int) (kind : String) (x : Tensor) : Tensor
  | reshape (shape : List Int) (x : Tensor) : Tensor
  | upSampling (x : Tensor) : Tensor
  | subPixel (x : Tensor) : Tensor
  | concat (axis : Int) (xs : List Tensor) : Tensor

/-- `nb_layers_per_block` is either a Python int or a Python list of ints. -/
inductive NbLayers where
  | int (n : Int) : NbLayers
  | list (l : List Int) : NbLayers
deriving DecidableEq

/-- `type(nb_layers_per_block) is list`. -/
def NbLayers.isList : NbLayers → Bool
  | .int _ => false
  | .list _ => true

/-- Python `int(q)` for a float/rational value: truncation toward zero. -/
def pyInt (q : Rat) : Int := Int.tdiv q.num (q.den : Int)

/-- Python `str.lower()` (the module only lowers ASCII keywords). -/
def pyLower (s : String) : String := ⟨s.data.map Char.toLower⟩

/-- `concat_axis = 1 if K.image_data_format() == "channels_first" else -1`.
The data format is threaded as the boolean `cf` (channels first). -/
def concatAxis (cf : Bool) : Int := if cf then 1 else -1

/-- `__conv_block` (lines 356-398): BatchNorm, relu, optional bottleneck
(1x1 conv of `4 * nb_filter` with its own BN + relu), 3x3 conv, optional
dropout.  Weight-decay regularizers are framework state and not recorded. -/
def conv_block (cf : Bool) (ip : Tensor) (nb_filter : Int) (bottleneck : Bool)
    (dropout_rate : Rat) : Tensor :=
  let x := Tensor.activationLayer "relu" (Tensor.batchNorm (concatAxis cf) ip)
  let x :=
    if bottleneck then
      let inter := Tensor.conv2d (nb_filter * 4) (1, 1) x
      let inter := if dropout_rate ≠ 0 then Tensor.dropoutLayer dropout_rate inter else inter
      Tensor.activationLayer "relu" (Tensor.batchNorm (concatAxis cf) inter)
    else x
  let x := Tensor.conv2d nb_filter (3, 3) x
  if dropout_rate ≠ 0 then Tensor.dropoutLayer dropout_rate x else x

/-- The filter count handed to the transition block's convolution,
`int(nb_filter * compression)` (line 431). -/
def transitionFilters (nb_filter : Int) (compression : Rat) : Int :=
  pyInt ((nb_filter : Rat) * compression)

/-- `__transition_block` (lines 401-443): BatchNorm, relu, 1x1 (by default)
conv to `int(nb_filter * compression)` filters, optional dropout, then
pooling.  The `"max"` branch references `MaxPooling2D`, which is neither
imported nor defined in the module (imports are lines 14-30), so that branch
raises `NameError`. -/
def transition_block (cf : Bool) (ip : Tensor) (nb_filter : Int) (compression : Rat)
    (dropout_rate : Rat) (dilation_rate : Int) (pooling : Option String)
    (kernel_size : Int × Int) : Except BuildError Tensor :=
  let x := Tensor.activationLayer "relu" (Tensor.batchNorm (concatAxis cf) ip)
  let x := Tensor.conv2d (transitionFilters nb_filter compression) kernel_size x
  let x := if dropout_rate ≠ 0 then Tensor.dropoutLayer dropout_rate x else x
  if pooling = some "avg" then .ok (Tensor.avgPool x)
  else if pooling = some "max" then .error (.nameError "MaxPooling2D")
  else .ok x

/-- One iteration of the `__dense_block` loop (lines 468-477), acting on the
state `(x, x_list, nb_filter)`: build a conv block on `x`, append it to
`x_list`, merge `x_list` by channel concatenation, optionally grow the
filter count. -/
def denseStep (cf : Bool) (growth_rate : Int) (bottleneck : Bool) (dropout_rate : Rat)
    (grow_nb_filters : Bool) (s : Tensor × List Tensor × Int) :
    Tensor × List Tensor × Int :=
  let cb := conv_block cf s.1 growth_rate bottleneck dropout_rate
  let xlist := s.2.1 ++ [cb]
  (Tensor.concat (concatAxis cf) xlist, xlist,
    if grow_nb_filters then s.2.2 + growth_rate else s.2.2)

/-- `__dense_block` (lines 446-482).  Returns `(x, nb_filter, x_list)`; the
source returns the first two, plus `x_list` when `return_concat_list` is set.
`range(nb_layers)` iterates `max nb_layers 0` times, hence `Int.toNat`. -/
def dense_block (cf : Bool) (x : Tensor) (nb_layers : Int) (nb_filter : Int)
    (growth_rate : Int) (bottleneck : Bool) (dropout_rate : Rat)
    (grow_nb_filters : Bool) : Tensor × Int × List Tensor :=
  let s := (denseStep cf growth_rate bottleneck dropout_rate grow_nb_filters)^[nb_layers.toNat]
    (x, [x], nb_filter)
  (s.1, s.2.2, s.2.1)

/-- `__transition_up_block` (lines 485-510): `UpSampling2D`, or subpixel
(conv, `SubPixelUpscaling`, conv), or `Conv2DTranspose` with the caller's
`output_shape`. -/
def transition_up_block (ip : Tensor) (nb_filters : Int) (uptype : String)
    (output_shape : List (Option Int)) : Tensor :=
  if uptype = "upsampling" then Tensor.upSampling ip
  else if uptype = "subpixel" then
    Tensor.conv2d nb_filters (3, 3)
      (Tensor.subPixel (Tensor.conv2d nb_filters (3, 3) ip))
  else Tensor.conv2dTranspose nb_filters output_shape ip

/-- `compression = 1.0 - reduction` (line 597 and line 727). -/
def denseNetCompression (reduction : Rat) : Rat := 1 - reduction

/-- Assertion message of line 566. -/
def depthMsg : String := "Depth must be nb_dense_block * N + 4"

/-- Assertion message of line 568. -/
def depthNoneMsg : String :=
  "Depth cannot be None when nb_layers_per_block is -1. Specify either parameter."

/-- Assertion message of lines 570 and 703. -/
def reductionMsg : String := "reduction value must lie between 0.0 and 1.0"

/-- Assertion message of lines 576-577 and 716-717. -/
def listLenMsg : String :=
  "If list, nb_layer is used as provided. Note that list size must be (nb_dense_block + 1)"

/-- Assertion message of lines 708-710. -/
def upsamplingConvMsg : String :=
  "Parameter upsampling_conv number of channels must be a positive number divisible by 4 and greater than 12"

/-- Per-block layer counts of `__create_dense_net` before the bottleneck
halving: the branch structure of lines 573-587.  Returns
`(nb_layers, final_nb_layer)`.  `int((depth - 4) / 3)` is float true division
followed by `int` truncation, which agrees with `Int.tdiv` on every depth the
preceding assert admits (and on all float-exact magnitudes).  In the `-1`
branch `depth` is not `None`, since line 568 already rejected that
combination; a direct call would raise `TypeError` on `None - 4`. -/
def computeNbLayersRaw (depth : Option Int) (nb_dense_block : Int) (nbl : NbLayers) :
    Except BuildError (List Int × Int) :=
  match nbl with
  | .list l =>
      if ¬((l.length : Int) = nb_dense_block + 1) then .error (.assertionError listLenMsg)
      else
        match l.getLast? with
        | none => .error (.indexError "list index out of range")
        | some fl => .ok (l.dropLast, fl)
  | .int k =>
      if k = -1 then
        match depth with
        | none => .error (.typeError "unsupported operand type for subtraction: NoneType")
        | some d =>
            let count := Int.tdiv (d - 4) 3
            .ok (List.replicate nb_dense_block.toNat count, count)
      else .ok (List.replicate nb_dense_block.toNat k, k)

/-- Lines 573-590: the per-block counts, then
`nb_layers = [int(layer // 2) for layer in nb_layers]` when `bottleneck`
(the final count is not halved). -/
def computeNbLayers (depth : Option Int) (nb_dense_block : Int) (nbl : NbLayers)
    (bottleneck : Bool) : Except BuildError (List Int × Int) :=
  match computeNbLayersRaw depth nb_dense_block nbl with
  | .error e => .error e
  | .ok (layers, fl) =>
      .ok ((if bottleneck then layers.map (fun layer => Int.fdiv layer 2) else layers), fl)

/-- Body of the `for block_idx in range(nb_dense_block - 1)` loop of
`__create_dense_net` (lines 605-617): dense block on `nb_layers[block_idx]`
layers, transition block, then `nb_filter = int(nb_filter * compression)`. -/
def denseNetDownStep (cf : Bool) (growth_rate : Int) (bottleneck : Bool)
    (dropout_rate compression : Rat) (dilation_rate : Int) (pooling : Option String)
    (kernel_size : Int × Int) (s : Except BuildError (Tensor × Int)) (layers_i : Int) :
    Except BuildError (Tensor × Int) :=
  match s with
  | .error e => .error e
  | .ok (x, nbf) =>
      let d := dense_block cf x layers_i nbf growth_rate bottleneck dropout_rate true
      match transition_block cf d.1 d.2.1 compression dropout_rate dilation_rate
          pooling kernel_size with
      | .error e => .error e
      | .ok t => .ok (t, pyInt ((d.2.1 : Rat) * compression))

/-- `__create_dense_net` (lines 513-644).  `depth is not None` branches on the
`Option`; `nb_layers_per_block is not -1` is value comparison (CPython
small-int caching makes `is` behave as `==` here).  `top is 'classification'`
compares interned string literals, hence string equality. -/
def create_dense_net (cf : Bool) (nb_classes : Int) (img_input : Tensor)
    (include_top : Bool) (top : String) (depth : Option Int) (nb_dense_block : Int)
    (growth_rate : Int) (nb_filter : Int) (nb_layers_per_block : NbLayers)
    (bottleneck : Bool) (reduction : Rat) (dropout_rate : Rat) (weight_decay : Rat)
    (transition_dilation_rate : Int) (transition_pooling : Option String)
    (transition_kernel_size : Int × Int) (input_shape : Option (Int × Int × Int))
    (activation : String) : Except BuildError Tensor :=
  if (match depth with
      | some d => decide (¬((d - 4) % 3 = 0))
      | none => false) = true then .error (.assertionError depthMsg)
  else if depth = none ∧ nb_layers_per_block = .int (-1) then
    .error (.assertionError depthNoneMsg)
  else if reduction ≠ 0 ∧ ¬(reduction ≤ 1 ∧ 0 < reduction) then
    .error (.assertionError reductionMsg)
  else
    match computeNbLayers depth nb_dense_block nb_layers_per_block bottleneck with
    | .error e => .error e
    | .ok (nb_layers, final_nb_layer) =>
        let nb_filter := if nb_filter ≤ 0 then 2 * growth_rate else nb_filter
        let compression := denseNetCompression reduction
        let x0 := Tensor.conv2d nb_filter (3, 3) img_input
        match (nb_layers.take (nb_dense_block - 1).toNat).foldl
            (denseNetDownStep cf growth_rate bottleneck dropout_rate compression
              transition_dilation_rate transition_pooling transition_kernel_size)
            (.ok (x0, nb_filter)) with
        | .error e => .error e
        | .ok (x1, nbf1) =>
            let d := dense_block cf x1 final_nb_layer nbf1 growth_rate bottleneck
              dropout_rate true
            let x2 := Tensor.activationLayer "relu"
              (Tensor.batchNorm (concatAxis cf) d.1)
            if include_top ∧ top = "classification" then
              .ok (Tensor.denseLayer nb_classes activation (Tensor.globalAvgPool x2))
            else if include_top ∧ top = "segmentation" then
              match input_shape with
              | none => .error (.typeError "cannot unpack non-iterable NoneType object")
              | some sh =>
                  let rc := if cf then (sh.2.1, sh.2.2) else (sh.1, sh.2.1)
                  .ok (Tensor.reshape [rc.1, rc.2, nb_classes]
                    (Tensor.activationLayer activation
                      (Tensor.reshape [rc.1 * rc.2, nb_classes]
                        (Tensor.conv2d nb_classes (1, 1) x2))))
            else .ok x2

/-- The pretrained-weights condition of lines 172-174: `weights == 'cifar10'`
and the eight hyperparameter comparisons. -/
def weightsLoadCond (depth : Option Int) (nb_dense_block growth_rate nb_filter : Int)
    (bottleneck : Bool) (reduction dropout_rate weight_decay : Rat)
    (weights : Option String) : Bool :=
  weights = some "cifar10" && depth = some 40 && nb_dense_block = 3 &&
    growth_rate = 12 && nb_filter = 16 && bottleneck = false && reduction = 0 &&
    dropout_rate = 0 && weight_decay = 1 / 10000

/-- `DenseNet` (lines 38-214): argument validation, graph construction through
`__create_dense_net` (the 18-argument call of lines 156-160 maps each argument
positionally onto the matching parameter), then the conditional weight-file
download and load of lines 172-213.  The returned flag records whether a
weight file was fetched by URL and loaded into the model (all four
data-format/top combinations fetch and load under the same condition).
`_obtain_input_shape` and the `Input`/`Model` wrappers are framework calls and
not modelled. -/
def DenseNet (cf : Bool) (input_shape : Option (Int × Int × Int)) (depth : Option Int)
    (nb_dense_block : Int) (growth_rate : Int) (nb_filter : Int)
    (nb_layers_per_block : NbLayers) (bottleneck : Bool) (reduction : Rat)
    (dropout_rate : Rat) (weight_decay : Rat) (include_top : Bool) (top : String)
    (weights : Option String) (classes : Int) (transition_dilation_rate : Int)
    (transition_pooling : Option String) (transition_kernel_size : Int × Int)
    (activation : String) : Except BuildError (Tensor × Bool) :=
  if ¬(weights = some "cifar10" ∨ weights = none) then
    .error (.valueError "The weights argument should be either None (random initialization) or cifar10 (pre-training on CIFAR-10).")
  else if weights = some "cifar10" ∧ include_top = true ∧ classes ≠ 10 then
    .error (.valueError "If using weights as CIFAR 10 with include_top as true, classes should be 10")
  else if ¬(activation = "softmax" ∨ activation = "sigmoid") then
    .error (.valueError "activation must be one of softmax or sigmoid")
  else if activation = "sigmoid" ∧ classes ≠ 1 then
    .error (.valueError "sigmoid activation can only be used when classes = 1")
  else
    match create_dense_net cf classes Tensor.img include_top top depth nb_dense_block
        growth_rate nb_filter nb_layers_per_block bottleneck reduction dropout_rate
        weight_decay transition_dilation_rate transition_pooling
        transition_kernel_size input_shape activation with
    | .error e => .error e
    | .ok x =>
        .ok (x, weightsLoadCond depth nb_dense_block growth_rate nb_filter bottleneck
          reduction dropout_rate weight_decay weights)

/-- Per-block layer counts of `__create_fcn_dense_net` (lines 713-724).
In the list branch the bottleneck count is `nb_layers[-1]` taken before
`nb_layers.extend(rev_layers[1:])` mirrors the list; in the int branch the
count is replicated `2 * nb_dense_block + 1` times. -/
def fcnComputeNbLayers (nb_dense_block : Int) (nbl : NbLayers) :
    Except BuildError (List Int × Int) :=
  match nbl with
  | .list l =>
      if ¬((l.length : Int) = nb_dense_block + 1) then .error (.assertionError listLenMsg)
      else
        match l.getLast? with
        | none => .error (.indexError "list index out of range")
        | some bnl => .ok (l ++ l.reverse.drop 1, bnl)
  | .int k => .ok (List.replicate (2 * nb_dense_block + 1).toNat k, k)

/-- `out_shape` as first assigned on lines 761-764:
`[batchsize, nb_filter, rows // 16, cols // 16]` for channels-first, else
`[batchsize, rows // 16, cols // 16, nb_filter]`. -/
def fcnInitOutShape (cf : Bool) (batchsize : Option Int) (nb_filter rows cols : Int) :
    List (Option Int) :=
  if cf then [batchsize, some nb_filter, some (Int.fdiv rows 16), some (Int.fdiv cols 16)]
  else [batchsize, some (Int.fdiv rows 16), some (Int.fdiv cols 16), some nb_filter]

/-- Lines 770-773: write `n_filters_keep` into the channel slot of
`out_shape` (`out_shape[1]` channels-first, `out_shape[3]` otherwise). -/
def fcnSetChannels (cf : Bool) (shape : List (Option Int)) (n : Int) :
    List (Option Int) :=
  if cf then shape.set 1 (some n) else shape.set 3 (some n)

/-- `out_shape[i] *= 2` on one index of the shape list. -/
def listDouble (l : List (Option Int)) (i : Nat) : List (Option Int) :=
  l.set i ((l.getD i none).map (fun v => v * 2))

/-- Lines 791-796: double both spatial entries of `out_shape`
(indices 2,3 channels-first, else 1,2). -/
def fcnDoubleSpatial (cf : Bool) (shape : List (Option Int)) : List (Option Int) :=
  if cf then listDouble (listDouble shape 2) 3 else listDouble (listDouble shape 1) 2

/-- Spatial entries of an `out_shape` list (indices 2,3 channels-first,
else 1,2). -/
def fcnSpatial (cf : Bool) (shape : List (Option Int)) : Option Int × Option Int :=
  if cf then (shape.getD 2 none, shape.getD 3 none)
  else (shape.getD 1 none, shape.getD 2 none)

/-- Body of the `for block_idx in range(nb_dense_block)` down loop of
`__create_fcn_dense_net` (lines 738-750), acting on `(x, nb_filter,
skip_list)`: dense block, record the skip connection, transition block with
its default `dilation_rate=1, pooling="avg", kernel_size=(1, 1)` (the call on
lines 746-747 passes none of the transition keywords), then
`nb_filter = int(nb_filter * compression)`. -/
def fcnDownStep (cf : Bool) (growth_rate : Int) (dropout_rate compression : Rat)
    (s : Except BuildError (Tensor × Int × List Tensor)) (layers_i : Int) :
    Except BuildError (Tensor × Int × List Tensor) :=
  match s with
  | .error e => .error e
  | .ok (x, nbf, skips) =>
      let d := dense_block cf x layers_i nbf growth_rate false dropout_rate true
      match transition_block cf d.1 d.2.1 compression dropout_rate 1 (some "avg")
          (1, 1) with
      | .error e => .error e
      | .ok t => .ok (t, pyInt ((d.2.1 : Rat) * compression), skips ++ [d.1])

/-- Body of the `for block_idx in range(nb_dense_block)` up loop of
`__create_fcn_dense_net` (lines 767-802), acting on the state
`(block_idx, x, nb_filter, concat_list, out_shape)`:
`n_filters_keep = growth_rate * nb_layers[nb_dense_block + block_idx]`,
channel slot of `out_shape` updated, `l = merge(concat_list[1:])`, transition
up block on `l` with the current `out_shape`, merge with
`skip_list[block_idx]`, spatial doubling of `out_shape`, then a
non-growing dense block whose `x_list` becomes the next `concat_list`. -/
def fcnUpStep (cf : Bool) (growth_rate : Int) (dropout_rate : Rat) (uptype : String)
    (nb_layers : List Int) (skip_list : List Tensor) (nb_dense_block : Int)
    (s : Nat × Tensor × Int × List Tensor × List (Option Int)) :
    Nat × Tensor × Int × List Tensor × List (Option Int) :=
  let idx := s.1
  let concat_list := s.2.2.2.1
  let out_shape := s.2.2.2.2
  let n_filters_keep := growth_rate * nb_layers.getD (nb_dense_block.toNat + idx) 0
  let shape1 := fcnSetChannels cf out_shape n_filters_keep
  let l := Tensor.concat (concatAxis cf) (concat_list.drop 1)
  let t := transition_up_block l n_filters_keep uptype shape1
  let x := Tensor.concat (concatAxis cf) [t, skip_list.getD idx Tensor.img]
  let shape2 := fcnDoubleSpatial cf shape1
  let d := dense_block cf x (nb_layers.getD (nb_dense_block.toNat + idx + 1) 0)
    growth_rate growth_rate false dropout_rate false
  (idx + 1, x, d.2.1, d.2.2, shape2)

/-- The body of `__create_fcn_dense_net` up to line 802: everything before
the `include_top and top is 'classification'` check. -/
def fcnBuild (cf : Bool) (nb_classes : Int) (img_input : Tensor)
    (nb_dense_block : Int) (growth_rate : Int) (reduction : Rat)
    (dropout_rate : Rat) (weight_decay : Rat) (nbl : NbLayers)
    (nb_upsampling_conv : Int) (upsampling_type : String) (batchsize : Option Int)
    (init_conv_filters : Int) (input_shape : Int × Int × Int) :
    Except BuildError Tensor :=
  let rows := if cf then input_shape.2.1 else input_shape.1
  let cols := if cf then input_shape.2.2 else input_shape.2.1
  if reduction ≠ 0 ∧ ¬(reduction ≤ 1 ∧ 0 < reduction) then
    .error (.assertionError reductionMsg)
  else if ¬(12 ≤ nb_upsampling_conv ∧ nb_upsampling_conv % 4 = 0) then
    .error (.assertionError upsamplingConvMsg)
  else
    match fcnComputeNbLayers nb_dense_block nbl with
    | .error e => .error e
    | .ok (nb_layers, bottleneck_nb_layers) =>
        let compression := denseNetCompression reduction
        let x0 := Tensor.conv2d init_conv_filters (3, 3) img_input
        match (nb_layers.take nb_dense_block.toNat).foldl
            (fcnDownStep cf growth_rate dropout_rate compression)
            (.ok (x0, init_conv_filters, ([] : List Tensor))) with
        | .error e => .error e
        | .ok (x1, nbf1, skips) =>
            let d2 := dense_block cf x1 bottleneck_nb_layers nbf1 growth_rate false
              dropout_rate true
            let skip_list := skips.reverse
            let out_shape := fcnInitOutShape cf batchsize d2.2.1 rows cols
            let fin := (fcnUpStep cf growth_rate dropout_rate upsampling_type
                nb_layers skip_list nb_dense_block)^[nb_dense_block.toNat]
              (0, x1, d2.2.1, d2.2.2, out_shape)
            .ok fin.2.1

/-- `__create_fcn_dense_net` (lines 647-817).  After the build, line 804
evaluates `include_top and top is 'classification'` where `top` is not a
parameter of this function and has no module-level binding: a truthy
`include_top` forces evaluation of `top` and raises `NameError`; a falsy
`include_top` short-circuits and the tensor is returned. -/
def create_fcn_dense_net (cf : Bool) (nb_classes : Int) (img_input : Tensor)
    (include_top : Bool) (nb_dense_block : Int) (growth_rate : Int)
    (reduction : Rat) (dropout_rate : Rat) (weight_decay : Rat) (nbl : NbLayers)
    (nb_upsampling_conv : Int) (upsampling_type : String) (batchsize : Option Int)
    (init_conv_filters : Int) (input_shape : Int × Int × Int) (activation : String) :
    Except BuildError Tensor :=
  match fcnBuild cf nb_classes img_input nb_dense_block growth_rate reduction
      dropout_rate weight_decay nbl nb_upsampling_conv upsampling_type batchsize
      init_conv_filters input_shape with
  | .error e => .error e
  | .ok x => if include_top then .error (.nameError "top") else .ok x

/-- The guard of lines 309-311:
`type(nb_layers_per_block) is not list and nb_dense_block < 1`.  Its error
message reports `nb_layers_per_block`, but the tested variable is
`nb_dense_block`. -/
def fcnLayersGuard (nbl : NbLayers) (nb_dense_block : Int) : Bool :=
  !nbl.isList && decide (nb_dense_block < 1)

/-- Message of the line 309-311 guard (with the `%d` placeholder elided). -/
def layersGuardMsg : String :=
  "Number of dense layers per block must be greater than 1. Argument value was"

/-- Message of the `TypeError` raised at line 337. -/
def tooManyArgsMsg : String :=
  "create_fcn_dense_net takes from 3 to 18 positional arguments but 19 were given"

/-- `DenseNetFCN` (lines 217-353): the validation chain of lines 290-317,
then the call of lines 337-342.  That call passes 19 positional arguments
(`input_shape` appears both as the 14th and the 19th argument) to
`__create_fcn_dense_net`, whose signature has only 18 parameters, so Python
raises `TypeError` at the call itself and the callee never runs. -/
def DenseNetFCN (cf : Bool) (input_shape : Option (Int × Int × Int))
    (nb_dense_block : Int) (growth_rate : Int) (nbl : NbLayers) (reduction : Rat)
    (dropout_rate : Rat) (weight_decay : Rat) (init_conv_filters : Int)
    (include_top : Bool) (top : String) (weights : Option String) (classes : Int)
    (activation : String) (upsampling_conv : Int) (upsampling_type : String)
    (batchsize : Option Int) : Except BuildError Tensor :=
  if ¬(weights = none) then
    .error (.valueError "The weights argument should be None (random initialization) as no model weights are provided.")
  else
    let upsampling_type := pyLower upsampling_type
    if ¬(upsampling_type = "upsampling" ∨ upsampling_type = "deconv" ∨
        upsampling_type = "subpixel") then
      .error (.valueError "Parameter upsampling_type must be one of upsampling, deconv, or subpixel.")
    else if upsampling_type = "deconv" ∧ batchsize = none then
      .error (.valueError "If upsampling_type is deconvoloution, then a fixed batch size must be provided in batchsize parameter.")
    else if input_shape = none then
      .error (.valueError "For fully convolutional models, input shape must be supplied.")
    else if fcnLayersGuard nbl nb_dense_block = true then
      .error (.valueError layersGuardMsg)
    else if ¬(activation = "softmax" ∨ activation = "sigmoid") then
      .error (.valueError "activation must be one of softmax or sigmoid")
    else if activation = "sigmoid" ∧ classes ≠ 1 then
      .error (.valueError "sigmoid activation can only be used when classes = 1")
    else .error (.typeError tooManyArgsMsg)

/-- The validation chain of `DenseNetFCN` passes (no `ValueError` of lines
290-317 fires). -/
def fcnValidationsPass (nbl : NbLayers) (input_shape : Option (Int × Int × Int))
    (weights : Option String) (classes : Int) (activation : String)
    (upsampling_type : String) (batchsize : Option Int) (nb_dense_block : Int) :
    Prop :=
  weights = none ∧
  (pyLower upsampling_type = "upsampling" ∨ pyLower upsampling_type = "deconv" ∨
    pyLower upsampling_type = "subpixel") ∧
  ¬(pyLower upsampling_type = "deconv" ∧ batchsize = none) ∧
  input_shape ≠ none ∧
  fcnLayersGuard nbl nb_dense_block = false ∧
  (activation = "softmax" ∨ activation = "sigmoid") ∧
  ¬(activation = "sigmoid" ∧ classes ≠ 1)

/-- Channel-axis concatenation of a dense block's input with a (possibly
empty) list of conv-block outputs: with no previous outputs the input tensor
itself, otherwise `merge([input] + outputs)`. -/
def denseCat (cf : Bool) (x0 : Tensor) (outs : List Tensor) : Tensor :=
  match outs with
  | [] => x0
  | _ => Tensor.concat (concatAxis cf) (x0 :: outs)

/-- Specification-side description of the conv-block outputs of a dense
block: output `i` is a conv block applied to the concatenation of the block
input with outputs `0..i-1`. -/
def denseOuts (cf : Bool) (x0 : Tensor) (growth_rate : Int) (bottleneck : Bool)
    (dropout_rate : Rat) : Nat → List Tensor
  | 0 => []
  | k + 1 =>
      let prev := denseOuts cf x0 growth_rate bottleneck dropout_rate k
      prev ++ [conv_block cf (denseCat cf x0 prev) growth_rate bottleneck dropout_rate]

/-- The filter count of the convolution a transition block applies, read off
the returned tensor (skipping the pooling and dropout layers above it). -/
def topConvFilters : Tensor → Option Int
  | .avgPool x => topConvFilters x
  | .dropoutLayer _ x => topConvFilters x
  | .conv2d f _ _ => some f
  | _ => none

/-- The shape of the `out_shape` list throughout the up loop: batch entry,
channel entry `ch`, and the two spatial entries (position depending on the
data format). -/
def mkShape (cf : Bool) (b ch : Option Int) (a c : Int) : List (Option Int) :=
  if cf then [b, ch, some a, some c] else [b, some a, some c, ch]

/-- The tensor built by one concrete down-loop step (used by a witness). -/
def c8t : Tensor :=
  Tensor.avgPool (Tensor.conv2d (transitionFilters 2 (1 / 2)) (1, 1)
    (Tensor.activationLayer "relu" (Tensor.batchNorm (concatAxis false) Tensor.img)))

/-- The tensor built by one concrete `fcnBuild` run (used by a witness). -/
def c1t : Tensor :=
  (fcnBuild false 1 Tensor.img 1 1 0 0 (1 / 10000) (NbLayers.int 1) 12 "upsampling"
    none 1 (16, 16, 3)).toOption.getD Tensor.img

theorem denseCat_append (cf : Bool) (x0 : Tensor) (l : List Tensor) (a : Tensor) :
    denseCat cf x0 (l ++ [a]) = Tensor.concat (concatAxis cf) (x0 :: (l ++ [a])) := by
  cases l <;> rfl

theorem denseFilters_iterate (cf : Bool) (gr : Int) (bn : Bool) (dr : Rat) (grow : Bool) :
    ∀ (k : Nat) (s : Tensor × List Tensor × Int),
      ((denseStep cf gr bn dr grow)^[k] s).2.2 =
        if grow then s.2.2 + (k : Int) * gr else s.2.2 := by
  intro k
  induction k with
  | zero => intro s; simp
  | succ k ih =>
      intro s
      rw [Function.iterate_succ_apply']
      rcases h : (denseStep cf gr bn dr grow)^[k] s with ⟨x, xl, m⟩
      have hm := ih s
      rw [h] at hm
      cases grow <;> simp_all [denseStep] <;> ring

theorem denseLoop_inv (cf : Bool) (x0 : Tensor) (gr : Int) (bn : Bool) (dr : Rat)
    (grow : Bool) (nbf : Int) :
    ∀ k : Nat,
      ((denseStep cf gr bn dr grow)^[k] (x0, [x0], nbf)).1 =
        denseCat cf x0 (denseOuts cf x0 gr bn dr k) ∧
      ((denseStep cf gr bn dr grow)^[k] (x0, [x0], nbf)).2.1 =
        x0 :: denseOuts cf x0 gr bn dr k := by
  intro k
  induction k with
  | zero => exact ⟨rfl, rfl⟩
  | succ k ih =>
      rw [Function.iterate_succ_apply']
      rcases h : (denseStep cf gr bn dr grow)^[k] (x0, [x0], nbf) with ⟨x, xl, m⟩
      rw [h] at ih
      obtain ⟨ih1, ih2⟩ := ih
      simp only at ih1 ih2
      subst ih1 ih2
      refine ⟨?_, ?_⟩
      · show Tensor.concat (concatAxis cf) ((x0 :: denseOuts cf x0 gr bn dr k) ++ _) = _
        rw [denseOuts, denseCat_append]
        rfl
      · show (x0 :: denseOuts cf x0 gr bn dr k) ++ _ = _
        rw [denseOuts]
        rfl

theorem denseOuts_length (cf : Bool) (x0 : Tensor) (gr : Int) (bn : Bool) (dr : Rat) :
    ∀ k : Nat, (denseOuts cf x0 gr bn dr k).length = k := by
  intro k
  induction k with
  | zero => rfl
  | succ k ih => rw [denseOuts]; simp [ih]

theorem denseOuts_take (cf : Bool) (x0 : Tensor) (gr : Int) (bn : Bool) (dr : Rat) :
    ∀ (j i : Nat), i ≤ j →
      (denseOuts cf x0 gr bn dr j).take i = denseOuts cf x0 gr bn dr i := by
  intro j
  induction j with
  | zero =>
      intro i hi
      interval_cases i
      rfl
  | succ j ih =>
      intro i hi
      rcases Nat.lt_or_ge i (j + 1) with hlt | hge
      · rw [denseOuts, List.take_append_of_le_length]
        · exact ih i (Nat.lt_succ_iff.mp hlt)
        · rw [denseOuts_length]; omega
      · have : i = j + 1 := le_antisymm hi hge
        subst this
        apply List.take_of_length_le
        rw [denseOuts_length]

theorem denseOuts_getD (cf : Bool) (x0 : Tensor) (gr : Int) (bn : Bool) (dr : Rat) :
    ∀ (j i : Nat), i < j →
      (denseOuts cf x0 gr bn dr j).getD i Tensor.img =
        conv_block cf (denseCat cf x0 (denseOuts cf x0 gr bn dr i)) gr bn dr := by
  intro j
  induction j with
  | zero => intro i hi; omega
  | succ j ih =>
      intro i hi
      rcases Nat.lt_or_ge i j with hlt | hge
      · rw [denseOuts, List.getD_append]
        · exact ih i hlt
        · rw [denseOuts_length]; omega
      · have : i = j := by omega
        subst this
        rw [denseOuts]
        rw [List.getD_eq_getElem?_getD, List.getElem?_append_right (by rw [denseOuts_length])]
        simp [denseOuts_length]

/-- C5: with `depth` given and `nb_layers_per_block == -1`, each of the
`nb_dense_block` per-block layer counts and the final count equal
`int((depth - 4) / 3)`, and under `bottleneck` each non-final count is
further halved by integer division by 2 (the final count is untouched). -/
theorem nb_layers_from_depth (d n : Int) (bn : Bool) :
    computeNbLayers (some d) n (NbLayers.int (-1)) bn =
      .ok ((if bn then List.replicate n.toNat (Int.fdiv (Int.tdiv (d - 4) 3) 2)
            else List.replicate n.toNat (Int.tdiv (d - 4) 3)),
           Int.tdiv (d - 4) 3) := by
  cases bn <;> simp [computeNbLayers, computeNbLayersRaw, List.map_replicate]

/-- C7: a dense block of `nb_layers` conv blocks grows the filter count by
exactly `growth_rate` per conv block when `grow_nb_filters` is set, returning
`nb_filter + nb_layers * growth_rate`; with `grow_nb_filters` unset it
returns `nb_filter` unchanged. -/
theorem dense_block_filter_growth (cf : Bool) (x0 : Tensor) (k : Nat) (nbf gr : Int)
    (bn : Bool) (dr : Rat) :
    (dense_block cf x0 (k : Int) nbf gr bn dr true).2.1 = nbf + (k : Int) * gr ∧
    (dense_block cf x0 (k : Int) nbf gr bn dr false).2.1 = nbf := by
  constructor <;>
    · show ((denseStep cf gr bn dr _)^[((k : Int)).toNat] (x0, [x0], nbf)).2.2 = _
      rw [Int.toNat_natCast, denseFilters_iterate]
      simp

/-- C6: in a dense block with `nb_layers >= 1`, conv block `i` receives the
channel concatenation of the block input with the outputs of conv blocks
`0..i-1` (the bare input when `i = 0`), the running `x_list` is the block
input followed by all conv outputs, and the returned tensor is the
concatenation of the block input with all `nb_layers` conv outputs. -/
theorem dense_block_wiring (cf : Bool) (x0 : Tensor) (k : Nat) (nbf gr : Int)
    (bn : Bool) (dr : Rat) (grow : Bool) :
    (dense_block cf x0 ((k : Int) + 1) nbf gr bn dr grow).2.2 =
      x0 :: denseOuts cf x0 gr bn dr (k + 1) ∧
    (dense_block cf x0 ((k : Int) + 1) nbf gr bn dr grow).1 =
      Tensor.concat (concatAxis cf) (x0 :: denseOuts cf x0 gr bn dr (k + 1)) ∧
    (∀ i : Nat, i < k + 1 →
      (denseOuts cf x0 gr bn dr (k + 1)).getD i Tensor.img =
        conv_block cf (denseCat cf x0 ((denseOuts cf x0 gr bn dr (k + 1)).take i))
          gr bn dr) := by
  have htn : ((k : Int) + 1).toNat = k + 1 := by omega
  have hinv := denseLoop_inv cf x0 gr bn dr grow nbf (k + 1)
  refine ⟨?_, ?_, ?_⟩
  · show ((denseStep cf gr bn dr grow)^[((k : Int) + 1).toNat] (x0, [x0], nbf)).2.1 = _
    rw [htn]
    exact hinv.2
  · show ((denseStep cf gr bn dr grow)^[((k : Int) + 1).toNat] (x0, [x0], nbf)).1 = _
    rw [htn, hinv.1, denseOuts, denseCat_append]
  · intro i hi
    rw [denseOuts_take cf x0 gr bn dr (k + 1) i (Nat.le_of_lt hi)]
    exact denseOuts_getD cf x0 gr bn dr (k + 1) i hi

/-- Witness for `dense_block_wiring` at `nb_layers = 2`, `i = 1`. -/
theorem dense_block_wiring_witness :
    1 < 1 + 1 ∧
    (denseOuts false Tensor.img 1 false 0 2).getD 1 Tensor.img =
      conv_block false
        (denseCat false Tensor.img ((denseOuts false Tensor.img 1 false 0 2).take 1))
        1 false 0 :=
  ⟨by decide, (dense_block_wiring false Tensor.img 1 0 1 false 0 true).2.2 1 (by decide)⟩

/-- C10: a transition block with `pooling == "max"` hits the unbound name
`MaxPooling2D` and fails with a name error; `pooling == "avg"` appends an
`AveragePooling2D`, and every other pooling value returns a tensor with no
pooling applied. -/
theorem transition_block_pooling (cf : Bool) (ip : Tensor) (nbf : Int)
    (comp dr : Rat) (dil : Int) (ks : Int × Int) :
    transition_block cf ip nbf comp dr dil (some "max") ks =
      .error (.nameError "MaxPooling2D") ∧
    (∃ t, transition_block cf ip nbf comp dr dil (some "avg") ks =
      .ok (Tensor.avgPool t)) ∧
    (∀ p : Option String, p ≠ some "max" →
      ∃ t, transition_block cf ip nbf comp dr dil p ks = .ok t) := by
  refine ⟨?_, ?_, ?_⟩
  · simp [transition_block]
  · by_cases h : dr ≠ 0 <;> simp [transition_block, h]
  · intro p hp
    by_cases ha : p = some "avg"
    · subst ha
      by_cases h : dr ≠ 0 <;> simp [transition_block, h]
    · by_cases h : dr ≠ 0 <;> simp [transition_block, h, ha, hp]

/-- Witness for `transition_block_pooling` with `pooling = None`. -/
theorem transition_block_pooling_witness :
    (none : Option String) ≠ some "max" ∧
    ∃ t, transition_block false Tensor.img 8 (1 / 2) 0 1 none (1, 1) = .ok t :=
  ⟨by decide,
    (transition_block_pooling false Tensor.img 8 (1 / 2) 0 1 (1, 1)).2.2 none (by decide)⟩

theorem cdn_depth_err (cf : Bool) (ncl : Int) (img : Tensor) (it : Bool) (top : String)
    (d : Int) (nbd gr nbf : Int) (nbl : NbLayers) (bn : Bool) (r dr wd : Rat)
    (tdr : Int) (tp : Option String) (tks : Int × Int) (ish : Option (Int × Int × Int))
    (act : String) (h : ¬((d - 4) % 3 = 0)) :
    create_dense_net cf ncl img it top (some d) nbd gr nbf nbl bn r dr wd tdr tp tks
      ish act = .error (.assertionError depthMsg) := by
  simp [create_dense_net, h]

/-- C4: with `depth` given, `__create_dense_net` proceeds only when
`(depth - 4) % 3 == 0`, raising the depth assertion otherwise (also through
`DenseNet`); with `depth` equal to `None` it requires `nb_layers_per_block`
different from `-1`, raising the companion assertion when both are unset. -/
theorem depth_validation (cf : Bool) (ncl : Int) (img : Tensor) (it : Bool)
    (top : String) (d : Int) (nbd gr nbf : Int) (nbl : NbLayers) (bn : Bool)
    (r dr wd : Rat) (tdr : Int) (tp : Option String) (tks : Int × Int)
    (ish : Option (Int × Int × Int)) (act : String) :
    (¬((d - 4) % 3 = 0) →
      create_dense_net cf ncl img it top (some d) nbd gr nbf nbl bn r dr wd tdr tp
        tks ish act = .error (.assertionError depthMsg)) ∧
    (create_dense_net cf ncl img it top none nbd gr nbf (NbLayers.int (-1)) bn r dr
      wd tdr tp tks ish act = .error (.assertionError depthNoneMsg)) ∧
    (¬((d - 4) % 3 = 0) →
      DenseNet cf ish (some d) nbd gr nbf nbl bn r dr wd it top none ncl tdr tp tks
        "softmax" = .error (.assertionError depthMsg)) := by
  refine ⟨cdn_depth_err cf ncl img it top d nbd gr nbf nbl bn r dr wd tdr tp tks ish act,
    ?_, ?_⟩
  · simp [create_dense_net]
  · intro h
    have hc := cdn_depth_err cf ncl Tensor.img it top d nbd gr nbf nbl bn r dr wd tdr
      tp tks ish "softmax" h
    simp [DenseNet, hc]

/-- Witness for `depth_validation` at `depth = 41`. -/
theorem depth_validation_witness :
    ¬(((41 : Int) - 4) % 3 = 0) ∧
    create_dense_net false 10 Tensor.img true "classification" (some 41) 3 12 16
      (NbLayers.int (-1)) false 0 0 (1 / 10000) 1 (some "avg") (1, 1) none
      "softmax" = .error (.assertionError depthMsg) :=
  ⟨by decide,
    (depth_validation false 10 Tensor.img true "classification" 41 3 12 16
      (NbLayers.int (-1)) false 0 0 (1 / 10000) 1 (some "avg") (1, 1) none
      "softmax").1 (by decide)⟩

/-- C3: a call to `DenseNet` that returns a model fetches and loads the
pretrained CIFAR-10 weight file exactly when `weights == 'cifar10'` and the
hyperparameters match the pretrained configuration (`depth == 40`,
`nb_dense_block == 3`, `growth_rate == 12`, `nb_filter == 16`, `bottleneck`
False, `reduction == 0.0`, `dropout_rate == 0.0`, `weight_decay == 1E-4`);
every other returning combination loads nothing, and a failing call fetches
nothing. -/
theorem DenseNet_weight_loading (cf : Bool) (ish : Option (Int × Int × Int))
    (depth : Option Int) (nbd gr nbf : Int) (nbl : NbLayers) (bn : Bool)
    (r dr wd : Rat) (it : Bool) (top : String) (w : Option String)
    (classes tdr : Int) (tp : Option String) (tks : Int × Int) (act : String) :
    (∃ res, DenseNet cf ish depth nbd gr nbf nbl bn r dr wd it top w classes tdr tp
        tks act = .ok res ∧ res.2 = true) ↔
      ((∃ res, DenseNet cf ish depth nbd gr nbf nbl bn r dr wd it top w classes tdr
          tp tks act = .ok res) ∧
        w = some "cifar10" ∧ depth = some 40 ∧ nbd = 3 ∧ gr = 12 ∧ nbf = 16 ∧
        bn = false ∧ r = 0 ∧ dr = 0 ∧ wd = 1 / 10000) := by
  unfold DenseNet
  repeat' split
  all_goals simp [weightsLoadCond, and_assoc]

theorem transition_topConvFilters (cf : Bool) (ip : Tensor) (nbf : Int)
    (comp dr : Rat) (dil : Int) (p : Option String) (ks : Int × Int) (t : Tensor)
    (h : transition_block cf ip nbf comp dr dil p ks = .ok t) :
    topConvFilters t = some (transitionFilters nbf comp) := by
  unfold transition_block at h
  split at h <;> split at h
  all_goals try split at h
  all_goals
    first
      | exact Except.noConfusion h
      | (injection h with h; subst h; simp [topConvFilters])

/-- C8: in `__create_dense_net` the compression factor is `1.0 - reduction`;
each down-loop iteration updates the running filter count to
`int(nb_filter * compression)`, which is the same count handed to that
transition block's convolution; and a nonzero `reduction` outside
`(0.0, 1.0]` raises the reduction assertion. -/
theorem densenet_transition_filters (cf : Bool) (gr : Int) (bn : Bool)
    (dr comp r wd : Rat) (tdr : Int) (tp : Option String) (tks : Int × Int)
    (ncl : Int) (img : Tensor) (it : Bool) (top : String) (nbd nbf0 : Int)
    (nbl : NbLayers) (ish : Option (Int × Int × Int)) (act : String) :
    denseNetCompression r = 1 - r ∧
    (∀ (x : Tensor) (nbf li : Int) (t : Tensor) (nbf2 : Int),
      denseNetDownStep cf gr bn dr comp tdr tp tks (.ok (x, nbf)) li = .ok (t, nbf2) →
        nbf2 = transitionFilters (dense_block cf x li nbf gr bn dr true).2.1 comp ∧
        topConvFilters t = some nbf2) ∧
    (r ≠ 0 → ¬(r ≤ 1 ∧ 0 < r) →
      create_dense_net cf ncl img it top (some 40) nbd gr nbf0 nbl bn r dr wd tdr tp
        tks ish act = .error (.assertionError reductionMsg)) := by
  refine ⟨rfl, ?_, ?_⟩
  · intro x nbf li t nbf2 h
    simp only [denseNetDownStep] at h
    rcases ht : transition_block cf (dense_block cf x li nbf gr bn dr true).1
        (dense_block cf x li nbf gr bn dr true).2.1 comp dr tdr tp tks with e | t0 <;>
      rw [ht] at h
    · exact absurd h (by simp)
    · injection h with h
      injection h with h1 h2
      subst h1
      subst h2
      exact ⟨rfl, transition_topConvFilters cf _ _ comp dr tdr tp tks t0 ht⟩
  · intro h1 h2
    simp [create_dense_net, h1, h2]

/-- Witness for `densenet_transition_filters`: one concrete down-loop step and
one concrete rejected reduction. -/
theorem densenet_transition_filters_witness :
    (pyInt (((2 : Int) : Rat) * (1 / 2)) =
        transitionFilters (dense_block false Tensor.img 0 2 12 false 0 true).2.1
          (1 / 2) ∧
      topConvFilters c8t = some (pyInt (((2 : Int) : Rat) * (1 / 2)))) ∧
    ((2 : Rat) ≠ 0 ∧ ¬((2 : Rat) ≤ 1 ∧ 0 < (2 : Rat))) ∧
    create_dense_net false 10 Tensor.img true "classification" (some 40) 3 12 16
      (NbLayers.int (-1)) false 2 0 (1 / 10000) 1 (some "avg") (1, 1) none
      "softmax" = .error (.assertionError reductionMsg) := by
  have hthm := densenet_transition_filters false 12 false 0 (1 / 2) 2 (1 / 10000) 1
    (some "avg") (1, 1) 10 Tensor.img true "classification" 3 16 (NbLayers.int (-1))
    none "softmax"
  exact ⟨hthm.2.1 Tensor.img 2 0 c8t (pyInt (((2 : Int) : Rat) * (1 / 2))) rfl,
    ⟨by norm_num, by norm_num⟩, hthm.2.2 (by norm_num) (by norm_num)⟩

/-- C1 counterexample: a concrete valid call to `DenseNetFCN` with
`include_top = True` fails with the arity `TypeError` of line 337 — not with
an unbound-name error — and with `include_top = False` the same call fails
identically instead of returning a model. -/
theorem DenseNetFCN_counterexample :
    DenseNetFCN false (some (32, 32, 3)) 5 16 (NbLayers.int 4) 0 0 (1 / 10000) 48
      true "segmentation" none 1 "softmax" 128 "upsampling" none =
      .error (.typeError tooManyArgsMsg) ∧
    BuildError.typeError tooManyArgsMsg ≠ BuildError.nameError "top" ∧
    DenseNetFCN false (some (32, 32, 3)) 5 16 (NbLayers.int 4) 0 0 (1 / 10000) 48
      false "segmentation" none 1 "softmax" 128 "upsampling" none =
      .error (.typeError tooManyArgsMsg) := by
  refine ⟨?_, by decide, ?_⟩ <;>
    simp [DenseNetFCN, pyLower, fcnLayersGuard, NbLayers.isList]

/-- C1 amended: `DenseNetFCN` never returns a model for any `include_top`:
every call that passes its validations raises the arity `TypeError` at the
19-argument call of line 337 before `__create_fcn_dense_net` runs.  The
unbound name `top` at line 804 is reached only by invoking
`__create_fcn_dense_net` directly: then a truthy `include_top` fails with the
unbound-name error on any argument set whose construction completes, and a
model tensor is produced only with `include_top` falsy. -/
theorem DenseNetFCN_never_returns (cf : Bool) (ish : Option (Int × Int × Int))
    (nbd gr : Int) (nbl : NbLayers) (r dr wd : Rat) (icf : Int) (it : Bool)
    (top : String) (w : Option String) (cls : Int) (act : String) (uc : Int)
    (ut : String) (bs : Option Int) (ncl : Int) (im : Tensor) (nbd2 gr2 : Int)
    (r2 dr2 wd2 : Rat) (nbl2 : NbLayers) (uc2 : Int) (ut2 : String)
    (bs2 : Option Int) (icf2 : Int) (ish2 : Int × Int × Int) (act2 : String) :
    (∀ t, DenseNetFCN cf ish nbd gr nbl r dr wd icf it top w cls act uc ut bs ≠
      .ok t) ∧
    (fcnValidationsPass nbl ish w cls act ut bs nbd →
      DenseNetFCN cf ish nbd gr nbl r dr wd icf it top w cls act uc ut bs =
        .error (.typeError tooManyArgsMsg)) ∧
    (∀ t, create_fcn_dense_net cf ncl im true nbd2 gr2 r2 dr2 wd2 nbl2 uc2 ut2 bs2
      icf2 ish2 act2 ≠ .ok t) ∧
    (∀ t, create_fcn_dense_net cf ncl im false nbd2 gr2 r2 dr2 wd2 nbl2 uc2 ut2 bs2
        icf2 ish2 act2 = .ok t →
      create_fcn_dense_net cf ncl im true nbd2 gr2 r2 dr2 wd2 nbl2 uc2 ut2 bs2 icf2
        ish2 act2 = .error (.nameError "top")) := by
  refine ⟨?_, ?_, ?_, ?_⟩
  · intro t
    simp only [DenseNetFCN]
    split_ifs <;> simp
  · rintro ⟨h1, h2, h3, h4, h5, h6, h7⟩
    simp only [DenseNetFCN]
    rw [if_neg (by simp [h1]), if_neg (not_not_intro h2), if_neg h3, if_neg h4,
      if_neg (by simp [h5]), if_neg (not_not_intro h6), if_neg h7]
  · intro t
    cases h : fcnBuild cf ncl im nbd2 gr2 r2 dr2 wd2 nbl2 uc2 ut2 bs2 icf2 ish2 <;>
      simp [create_fcn_dense_net, h]
  · intro t h
    cases hb : fcnBuild cf ncl im nbd2 gr2 r2 dr2 wd2 nbl2 uc2 ut2 bs2 icf2 ish2 <;>
      simp [create_fcn_dense_net, hb] at h ⊢

/-- Witness for `DenseNetFCN_never_returns`: the validated call hits the
arity `TypeError`, and a direct `__create_fcn_dense_net` invocation whose
construction completes hits the unbound name `top`. -/
theorem DenseNetFCN_never_returns_witness :
    DenseNetFCN false (some (32, 32, 3)) 5 16 (NbLayers.int 4) 0 0 (1 / 10000) 48
      true "segmentation" none 1 "softmax" 128 "upsampling" none =
      .error (.typeError tooManyArgsMsg) ∧
    create_fcn_dense_net false 1 Tensor.img true 1 1 0 0 (1 / 10000)
      (NbLayers.int 1) 12 "upsampling" none 1 (16, 16, 3) "softmax" =
      .error (.nameError "top") := by
  have hthm := DenseNetFCN_never_returns false (some (32, 32, 3)) 5 16
    (NbLayers.int 4) 0 0 (1 / 10000) 48 true "segmentation" none 1 "softmax" 128
    "upsampling" none 1 Tensor.img 1 1 0 0 (1 / 10000) (NbLayers.int 1) 12
    "upsampling" none 1 (16, 16, 3) "softmax"
  refine ⟨hthm.2.1 ?_, hthm.2.2.2 c1t ?_⟩
  · exact ⟨rfl, Or.inl (by decide), by decide, by decide, by decide, Or.inl rfl,
      by decide⟩
  · rfl

/-- C2 (code bug): the guard of lines 309-311 tests `nb_dense_block < 1`, so
its outcome is independent of the value of a non-list `nb_layers_per_block`,
and a concrete call with `nb_layers_per_block = 0` (and the default
`nb_dense_block = 5`) sails past the validation — reaching the later arity
`TypeError` — instead of raising the advertised `ValueError`. -/
theorem fcn_layers_guard_bug :
    (∀ (k k2 n : Int), fcnLayersGuard (NbLayers.int k) n =
      fcnLayersGuard (NbLayers.int k2) n) ∧
    fcnLayersGuard (NbLayers.int 0) 5 = false ∧
    DenseNetFCN false (some (32, 32, 3)) 5 16 (NbLayers.int 0) 0 0 (1 / 10000) 48
      true "segmentation" none 1 "softmax" 128 "upsampling" none =
      .error (.typeError tooManyArgsMsg) := by
  refine ⟨fun k k2 n => rfl, rfl, ?_⟩
  simp [DenseNetFCN, pyLower, fcnLayersGuard, NbLayers.isList]

theorem fcnUpShape_inv (cf : Bool) (gr : Int) (dr : Rat) (ut : String)
    (nls : List Int) (sk : List Tensor) (nbd : Int) (b : Option Int)
    (nbf rows cols : Int) (x0 : Tensor) (nbf0 : Int) (cl0 : List Tensor) :
    ∀ k : Nat, ∃ ch : Option Int,
      ((fcnUpStep cf gr dr ut nls sk nbd)^[k]
          (0, x0, nbf0, cl0, fcnInitOutShape cf b nbf rows cols)).2.2.2.2 =
        mkShape cf b ch (Int.fdiv rows 16 * 2 ^ k) (Int.fdiv cols 16 * 2 ^ k) := by
  intro k
  induction k with
  | zero => exact ⟨some nbf, by cases cf <;> simp [fcnInitOutShape, mkShape]⟩
  | succ k ih =>
      obtain ⟨ch, hch⟩ := ih
      rw [Function.iterate_succ_apply']
      rcases hs : (fcnUpStep cf gr dr ut nls sk nbd)^[k]
          (0, x0, nbf0, cl0, fcnInitOutShape cf b nbf rows cols) with
        ⟨idx, xx, nf, cl, sh⟩
      rw [hs] at hch
      simp only at hch
      subst hch
      refine ⟨some (gr * nls.getD (nbd.toNat + idx) 0), ?_⟩
      cases cf <;>
        simp [fcnUpStep, fcnSetChannels, fcnDoubleSpatial, listDouble, mkShape,
          List.getD, pow_succ] <;>
        exact ⟨mul_assoc _ _ _, mul_assoc _ _ _⟩

/-- C9 amended: the `out_shape` handed to the transposed-convolution up-block
`k` of `__create_fcn_dense_net` has spatial dimensions
`rows // 16 * 2 ** k` and `cols // 16 * 2 ** k` — `rows // 16` and
`cols // 16` before the first up-block (a constant `16 = 2 ** 4`, matching
the feature-map resolution only when `nb_dense_block = 4`), doubling after
each up-block; the deconv branch of `__transition_up_block` consumes exactly
that shape. -/
theorem fcn_up_out_shape (cf : Bool) (gr : Int) (dr : Rat) (ut : String)
    (nls : List Int) (sk : List Tensor) (nbd : Int) (b : Option Int)
    (nbf rows cols : Int) (x0 : Tensor) (nbf0 : Int) (cl0 : List Tensor) (k : Nat)
    (nfk n : Int) (ip : Tensor) :
    fcnSpatial cf (((fcnUpStep cf gr dr ut nls sk nbd)^[k]
        (0, x0, nbf0, cl0, fcnInitOutShape cf b nbf rows cols)).2.2.2.2) =
      (some (Int.fdiv rows 16 * 2 ^ k), some (Int.fdiv cols 16 * 2 ^ k)) ∧
    fcnSpatial cf (fcnSetChannels cf (((fcnUpStep cf gr dr ut nls sk nbd)^[k]
        (0, x0, nbf0, cl0, fcnInitOutShape cf b nbf rows cols)).2.2.2.2) nfk) =
      (some (Int.fdiv rows 16 * 2 ^ k), some (Int.fdiv cols 16 * 2 ^ k)) ∧
    transition_up_block ip n "deconv"
        (fcnSetChannels cf (((fcnUpStep cf gr dr ut nls sk nbd)^[k]
          (0, x0, nbf0, cl0, fcnInitOutShape cf b nbf rows cols)).2.2.2.2) nfk) =
      Tensor.conv2dTranspose n
        (fcnSetChannels cf (((fcnUpStep cf gr dr ut nls sk nbd)^[k]
          (0, x0, nbf0, cl0, fcnInitOutShape cf b nbf rows cols)).2.2.2.2) nfk)
        ip := by
  obtain ⟨ch, hch⟩ := fcnUpShape_inv cf gr dr ut nls sk nbd b nbf rows cols x0 nbf0
    cl0 k
  rw [hch]
  refine ⟨?_, ?_, by simp [transition_up_block]⟩ <;>
    cases cf <;> simp [fcnSpatial, fcnSetChannels, mkShape, List.getD]

/-- C9 counterexample: with the module's default `nb_dense_block = 5` and a
64x64 input, the initial `out_shape` of lines 761-764 has spatial dimensions
`64 // 16 = 4`, not `64 // 2 ** 5 = 2` as the claim derives. -/
theorem fcn_out_shape_counterexample :
    fcnSpatial false (fcnInitOutShape false none 240 64 64) = (some 4, some 4) ∧
    Int.fdiv 64 (2 ^ (5 : Nat)) = 2 ∧
    fcnSpatial false (fcnInitOutShape false none 240 64 64) ≠
      (some (Int.fdiv 64 (2 ^ (5 : Nat))), some (Int.fdiv 64 (2 ^ (5 : Nat)))) := by
  refine ⟨by decide, by decide, by decide⟩

end KC
